import Mathlib

/-!
Verification of the Slack→Jira relay bot (`src/index.js`).

The JavaScript source is shallowly embedded below.  Pure helpers become
Lean functions; the two Express handlers (`POST /slack/events` and
`POST /slack/commands`) become functions producing the ordered list of
observable actions they perform (HTTP responses, Jira queries, Slack
posts, `response_url` callbacks).  The HMAC-SHA256 primitive and the
Jira search endpoint are external collaborators and are passed in as
function parameters, so every theorem quantifies over them.
-/

namespace SlackBot

/-- An inbound HTTP request, reduced to the fields `verifySlackSignature`
reads: the two Slack headers (`none` = header absent) and the raw body
decoded as UTF-8 (`req.body.toString("utf8")`). -/
structure HttpReq where
  timestampHeader : Option String
  signatureHeader : Option String
  rawBody : String
deriving Repr, DecidableEq

/-- JavaScript truthiness of an optional string header or field:
`undefined`/`null` and the empty string are falsy. -/
def strTruthy : Option String → Bool
  | none => false
  | some s => s ≠ ""

/-- A character matched by the JavaScript regex class `\s`, restricted to
the ASCII whitespace characters. -/
def isJsSpace (c : Char) : Bool :=
  c = ' ' || c = '\t' || c = '\n' || c = '\r' || c = '\x0b' || c = '\x0c'

/-- Numeric value of a decimal digit character. -/
def digitVal (c : Char) : Nat := c.toNat - '0'.toNat

/-- Value of a run of decimal digit characters. -/
def digitsToNat (l : List Char) : Nat := l.foldl (fun n c => n * 10 + digitVal c) 0

/-- Whitespace trimming as performed by the JavaScript `Number(string)`
conversion and by `string.trim()`. -/
def trimJs (l : List Char) : List Char :=
  ((l.dropWhile isJsSpace).reverse.dropWhile isJsSpace).reverse

/-- The JavaScript `string.trim()` builtin. -/
def trimString (s : String) : String := String.mk (trimJs s.data)

/-- Partial model of the JavaScript `Number(string)` conversion as used on
the timestamp header: surrounding whitespace is trimmed, the empty string
converts to 0, an optionally `-`-signed run of decimal digits converts to
the corresponding integer, and every other string converts to NaN
(represented here as `none`; JS syntaxes not used by Slack timestamps,
such as decimals or hex, are mapped to NaN as well). -/
def jsNumber (s : String) : Option Int :=
  let t := trimJs s.data
  if t.isEmpty then some 0
  else if t.all Char.isDigit then some (digitsToNat t : Int)
  else
    match t with
    | '-' :: rest =>
      if !rest.isEmpty && rest.all Char.isDigit then
        some (-(digitsToNat rest : Int))
      else none
    | _ => none

/-- Node's `crypto.timingSafeEqual(Buffer.from(a), Buffer.from(b))`:
throws (modelled as `Except.error`) when the two UTF-8 byte buffers have
different lengths, otherwise returns whether the buffers are equal
(byte equality of UTF-8 encodings coincides with string equality). -/
def timingSafeEqual (a b : String) : Except Unit Bool :=
  if a.utf8ByteSize ≠ b.utf8ByteSize then .error ()
  else .ok (a == b)

/-- The anti-replay check of `verifySlackSignature` (line 73):
`Math.abs(now - Number(timestamp)) > 60 * 5`.  When `Number(timestamp)`
is NaN the JS comparison `NaN > 300` is `false`, so no rejection happens
— modelled by the `none` branch. -/
def windowRejects (now : Int) (ts : String) : Bool :=
  match jsNumber ts with
  | some n => 60 * 5 < (now - n).natAbs
  | none => false

/-- The tag construction and comparison of `verifySlackSignature`
(lines 75–88): expected tag
`"v0=" + hmac(secret, "v0:" + timestamp + ":" + rawBody)`, then
`try { return crypto.timingSafeEqual(...) } catch { return false }`. -/
def signatureMatches (hmac : String → String → String) (secret : String)
    (ts rawBody sig : String) : Bool :=
  let base := "v0:" ++ ts ++ ":" ++ rawBody
  let expected := "v0=" ++ hmac secret base
  match timingSafeEqual expected sig with
  | .ok r => r
  | .error _ => false

/-- `verifySlackSignature(req)` from `src/index.js` (lines 66–89),
parameterised by the HMAC-SHA256-hex primitive `hmac` (keyed by the
signing secret) and the current Unix time `now`
(`Math.floor(Date.now() / 1000)`).  The first guard is
`if (!timestamp || !signature) return false;` (absent or empty-string
headers are both falsy). -/
def verifySlackSignature (hmac : String → String → String) (secret : String)
    (now : Int) (req : HttpReq) : Bool :=
  match req.timestampHeader, req.signatureHeader with
  | some ts, some sig =>
    if ts = "" ∨ sig = "" then false
    else if windowRejects now ts then false
    else signatureMatches hmac secret ts req.rawBody sig
  | _, _ => false

/-- A character matched by the JavaScript regex class `[a-zA-Z0-9_]`. -/
def isWordChar (c : Char) : Bool :=
  c.isAlpha || c.isDigit || c = '_'

/-- Leftmost match of the regex `(^|\s)#([a-zA-Z0-9_]+)` over a character
list, returning capture group 2.  `boundary` records whether the current
position is the start of the text or preceded by a `\s` character. -/
def findHash : Bool → List Char → Option (List Char)
  | _, [] => none
  | boundary, c :: rest =>
    if c = '#' then
      if boundary then
        let run := rest.takeWhile isWordChar
        if run.isEmpty then findHash false rest else some run
      else findHash false rest
    else findHash (isJsSpace c) rest

/-- `parseHashCommand(text)` from `src/index.js` (lines 91–95):
`if (!text) return null;` then the leftmost match of
`/(^|\s)#([a-zA-Z0-9_]+)/`, returning `match[2].toLowerCase()`. -/
def parseHashCommand (text : Option String) : Option String :=
  match text with
  | none => none
  | some t =>
    if t = "" then none
    else (findHash true t.data).map (fun run => String.mk (run.map Char.toLower))

/-- Process-wide configuration established at startup: the signing
secret, the allow-listed channels (`ALLOWED_CHANNELS`) and the Jira base
URL (`JIRA_BASE_URL`). -/
structure Config where
  secret : String
  allowedChannels : List String
  jiraBaseUrl : String
deriving Repr

/-- `JQL_PROBLEMAS_HOY` from `src/index.js` (after `.trim()`). -/
def JQL_PROBLEMAS_HOY : String :=
  "issuetype in (\n  \"Problema Eléctrico\",\n  \"Problema Mantenimiento\",\n  \"Problema Jardinería\",\n  \"Problema Infraestructura\"\n)\nAND created >= startOfDay()\nORDER BY created DESC"

/-- `JQL_DETALLES_HOY` from `src/index.js` (after `.trim()`). -/
def JQL_DETALLES_HOY : String :=
  "issuetype in (\n  \"Detalle Eléctrico\",\n  \"Detalle Mantenimiento\",\n  \"Detalle Jardinería\",\n  \"Detalle Infraestructura\"\n)\nAND created >= startOfDay()\nORDER BY created DESC"

/-- `JQL_ASISTENCIA_MANANA` from `src/index.js` (after `.trim()`). -/
def JQL_ASISTENCIA_MANANA : String :=
  "project = RH\nAND issuetype = \"recurso humano\"\nAND due >= startOfDay(\"+1d\")\nAND due <  startOfDay(\"+2d\")\nORDER BY due ASC, created ASC"

/-- A Jira issue as consumed by `formatIssueLine`: the key plus the three
projected fields, each `none` when missing from the payload. -/
structure Issue where
  key : String
  summary : Option String
  issuetypeName : Option String
  statusName : Option String
deriving Repr, DecidableEq

/-- The parsed body of a successful Jira search response; `issues` is
`none` when the JSON has no `issues` key (the handlers apply `|| []`). -/
structure JiraData where
  issues : Option (List Issue)
deriving Repr, DecidableEq

/-- Outcome of one `jiraSearch` call: `Except.error msg` models a thrown
error whose `err.message` is `msg` (non-ok HTTP status or network
failure); `Except.ok` carries the parsed body. -/
abbrev JiraOracle := String → Nat → Except String JiraData

/-- `buildCommandsHelp(hashOrSlash)` from `src/index.js`. -/
def buildCommandsHelp (hashOrSlash : String) : String :=
  let pre := hashOrSlash
  String.intercalate "\n"
    [ "*Comandos disponibles:*"
    , "• `" ++ pre ++ "problemashoy` — Problemas creados hoy (Jira)."
    , "• `" ++ pre ++ "detalleshoy` — Detalles creados hoy (Jira)."
    , "• `" ++ pre ++ "comandos` — Lista de comandos."
    , "• `" ++ pre ++ "asistenciamanana` — Asistencias de manana (Jira)."
    ]

/-- `formatIssueLine(issue)` from `src/index.js`: the `|| ""` defaults on
the projected fields become `Option.getD`. -/
def formatIssueLine (jiraBaseUrl : String) (issue : Issue) : String :=
  let summary := issue.summary.getD ""
  let type := issue.issuetypeName.getD ""
  let status := issue.statusName.getD ""
  let url := jiraBaseUrl ++ "/browse/" ++ issue.key
  "• <" ++ url ++ "|" ++ issue.key ++ "> — *" ++ type ++ "* — " ++ status ++ " — " ++ summary

/-- The JavaScript `string.slice(0, n)` truncation (JS counts UTF-16
units; this model counts characters, which agrees on all
non-astral-plane text). -/
def sliceChars (s : String) (n : Nat) : String := String.mk (s.data.take n)

/-- Header line shared by every query-backed command:
`` `*${title}* — Total: *${issues.length}*` ``. -/
def resultHeader (title : String) (total : Nat) : String :=
  "*" ++ title ++ "* — Total: *" ++ toString total ++ "*"

/-- Body lines shared by every query-backed command:
`issues.slice(0, 25).map(formatIssueLine)`. -/
def resultLines (jiraBaseUrl : String) (issues : List Issue) : List String :=
  (issues.take 25).map (formatIssueLine jiraBaseUrl)

/-- Body shared by every query-backed command:
`lines.length ? lines.join("\n") : noResults`. -/
def resultBody (noResults : String) (lines : List String) : String :=
  if lines.length ≠ 0 then String.intercalate "\n" lines else noResults

/-- The assembled `` `${header}\n${body}` `` text of a query-backed
command, before the 3800-character delivery truncation. -/
def resultText (title noResults jiraBaseUrl : String) (issues : List Issue) : String :=
  resultHeader title issues.length ++ "\n" ++
    resultBody noResults (resultLines jiraBaseUrl issues)

/-- An HTTP response sent on the still-open inbound call:
`text s b` is `res.status(s).send(b)`; `json s rt t` is
`res.status(s).json({response_type: rt, text: t})`. -/
inductive HttpResponse where
  | text (status : Nat) (body : String)
  | json (status : Nat) (responseType : String) (body : String)
deriving Repr, DecidableEq

/-- One observable action of a handler, in execution order: the HTTP
response to the inbound call, a `jiraSearch(jql, maxResults)` call, a
`slack.chat.postMessage({channel, thread_ts, text})` call, or a POST to a
`response_url` with `{response_type, text}`. -/
inductive Action where
  | respond (r : HttpResponse)
  | jiraQuery (jql : String) (maxResults : Nat)
  | slackPost (channel : String) (thread_ts : String) (text : String)
  | responseUrlPost (url : String) (responseType : String) (text : String)
deriving Repr, DecidableEq

/-- `respondInChannelViaResponseUrl(responseUrl, text)` from
`src/index.js`: posts `{response_type: "in_channel",
text: (text || "").slice(0, 3800)}` to the callback URL. -/
def respondInChannelViaResponseUrl (responseUrl text : String) : Action :=
  .responseUrlPost responseUrl "in_channel" (sliceChars text 3800)

/-- The `event` object of an `event_callback` payload, reduced to the
fields the handler reads; optional fields are `none` when absent. -/
structure SlackEvent where
  type : String
  bot_id : Option String
  subtype : Option String
  channel : String
  text : Option String
  ts : String
deriving Repr, DecidableEq

/-- A parsed `/slack/events` JSON body, reduced to the fields the handler
reads (`challenge` defaults to the empty string when absent). -/
structure EventsPayload where
  type : String
  challenge : String
  event : Option SlackEvent
deriving Repr, DecidableEq

/-- An inbound request on `POST /slack/events`: the raw HTTP data plus
the result of `JSON.parse(req.body.toString("utf8"))` (`none` when the
parse throws). -/
structure EventsRequest where
  http : HttpReq
  payload : Option EventsPayload
deriving Repr

/-- The command-dispatch tail of the `/slack/events` handler
(`src/index.js` lines 204–255), run after the immediate ack: the
`try`/`catch` posts `` `Error: ${err.message}`.slice(0, 3800) `` into the
thread when a Jira call throws. -/
def eventsDispatch (cfg : Config) (jira : JiraOracle) (ev : SlackEvent)
    (cmd : String) : List Action :=
  if cmd = "comandos" then
    [.slackPost ev.channel ev.ts (buildCommandsHelp "#")]
  else if cmd = "problemashoy" then
    .jiraQuery JQL_PROBLEMAS_HOY 50 ::
      (match jira JQL_PROBLEMAS_HOY 50 with
       | .ok data =>
         [.slackPost ev.channel ev.ts
           (sliceChars (resultText "Problemas de hoy" "• Sin resultados para hoy."
             cfg.jiraBaseUrl (data.issues.getD [])) 3800)]
       | .error msg =>
         [.slackPost ev.channel ev.ts (sliceChars ("Error: " ++ msg) 3800)])
  else if cmd = "detalleshoy" then
    .jiraQuery JQL_DETALLES_HOY 50 ::
      (match jira JQL_DETALLES_HOY 50 with
       | .ok data =>
         [.slackPost ev.channel ev.ts
           (sliceChars (resultText "Detalles de hoy" "• Sin resultados para hoy."
             cfg.jiraBaseUrl (data.issues.getD [])) 3800)]
       | .error msg =>
         [.slackPost ev.channel ev.ts (sliceChars ("Error: " ++ msg) 3800)])
  else
    [.slackPost ev.channel ev.ts
      "Comando no reconocido. Escribí #comandos para ver la lista."]

/-- The post-ack gating of the `/slack/events` handler (`src/index.js`
lines 193–200): non-`event_callback` payloads, missing / non-message /
bot-authored / subtyped events, non-allow-listed channels and text with
no parsable command all fall through silently (no further action). -/
def eventsGate (cfg : Config) (jira : JiraOracle) (payload : EventsPayload) : List Action :=
  if payload.type ≠ "event_callback" then []
  else
    match payload.event with
    | none => []
    | some ev =>
      if ev.type ≠ "message" || strTruthy ev.bot_id || strTruthy ev.subtype then []
      else if !cfg.allowedChannels.contains ev.channel then []
      else
        match parseHashCommand ev.text with
        | none => []
        | some cmd => eventsDispatch cfg jira ev cmd

/-- The `POST /slack/events` handler (`src/index.js` lines 167–257), as
the ordered list of observable actions: bad JSON → 400; a
`url_verification` payload is answered with its challenge *before* the
signature check; failed verification → 401; otherwise the immediate
`res.status(200).send("ok")` ack followed by the gated dispatch. -/
def handleEvents (hmac : String → String → String) (cfg : Config) (now : Int)
    (jira : JiraOracle) (req : EventsRequest) : List Action :=
  match req.payload with
  | none => [.respond (.text 400 "bad json")]
  | some payload =>
    if payload.type = "url_verification" then
      [.respond (.text 200 payload.challenge)]
    else if !verifySlackSignature hmac cfg.secret now req.http then
      [.respond (.text 401 "invalid signature")]
    else
      .respond (.text 200 "ok") :: eventsGate cfg jira payload

/-- An inbound request on `POST /slack/commands`: the raw HTTP data plus
the URL-decoded form fields the handler reads (`none` when
`params.get(...)` returns `null`). -/
structure CommandsRequest where
  http : HttpReq
  command : Option String
  channel_id : Option String
  response_url : Option String
deriving Repr

/-- The command-dispatch tail of the `/slack/commands` handler
(`src/index.js` lines 292–331), run after the immediate empty ack.  A
thrown Jira error reaches the outer `catch`, whose
`res.status(500).send(...)` itself throws because the ack was already
sent and is swallowed — so the error path performs no further
observable action. -/
def commandsDispatch (cfg : Config) (jira : JiraOracle)
    (responseUrl command : String) : List Action :=
  if command = "/comandos" then
    [respondInChannelViaResponseUrl responseUrl (buildCommandsHelp "/")]
  else if command = "/problemashoy" then
    .jiraQuery JQL_PROBLEMAS_HOY 50 ::
      (match jira JQL_PROBLEMAS_HOY 50 with
       | .ok data =>
         [respondInChannelViaResponseUrl responseUrl
           (resultText "Problemas de hoy" "• Sin resultados para hoy."
             cfg.jiraBaseUrl (data.issues.getD []))]
       | .error _ => [])
  else if command = "/detalleshoy" then
    .jiraQuery JQL_DETALLES_HOY 50 ::
      (match jira JQL_DETALLES_HOY 50 with
       | .ok data =>
         [respondInChannelViaResponseUrl responseUrl
           (resultText "Detalles de hoy" "• Sin resultados para hoy."
             cfg.jiraBaseUrl (data.issues.getD []))]
       | .error _ => [])
  else if command = "/asistenciamanana" then
    .jiraQuery JQL_ASISTENCIA_MANANA 50 ::
      (match jira JQL_ASISTENCIA_MANANA 50 with
       | .ok data =>
         [respondInChannelViaResponseUrl responseUrl
           (resultText "Asistencias de mañana" "• Sin resultados para mañana."
             cfg.jiraBaseUrl (data.issues.getD []))]
       | .error _ => [])
  else
    [respondInChannelViaResponseUrl responseUrl
      ("Comando no reconocido: " ++ command ++ "\n\n" ++ buildCommandsHelp "/")]

/-- The `POST /slack/commands` handler (`src/index.js` lines 266–341), as
the ordered list of observable actions: failed verification → 401;
missing (falsy) `response_url` → 400 *before* the allow-list check; a
non-allow-listed `channel_id` → the direct ephemeral "not enabled in
this channel" JSON reply; otherwise the immediate empty
`res.status(200).send("")` ack followed by the dispatch. -/
def handleCommands (hmac : String → String → String) (cfg : Config) (now : Int)
    (jira : JiraOracle) (req : CommandsRequest) : List Action :=
  if !verifySlackSignature hmac cfg.secret now req.http then
    [.respond (.text 401 "invalid signature")]
  else
    let command := trimString (req.command.getD "")
    let channelId := trimString (req.channel_id.getD "")
    if !strTruthy req.response_url then
      [.respond (.text 400 "missing response_url")]
    else
      let responseUrl := req.response_url.getD ""
      if !cfg.allowedChannels.contains channelId then
        [.respond (.json 200 "ephemeral" "Este comando no está habilitado en este canal.")]
      else
        .respond (.text 200 "") :: commandsDispatch cfg jira responseUrl command

/-! ## Concrete test fixtures

A deterministic HMAC stand-in, a configuration, request values and Jira
oracles used to evaluate the handlers on closed inputs. -/

/-- A concrete stand-in for the HMAC-SHA256-hex primitive. -/
def testHmac : String → String → String := fun _ _ => "aa"

/-- A concrete configuration with one allow-listed channel `"C1"`. -/
def testCfg : Config := ⟨"sek", ["C1"], "https://jira.example"⟩

/-- A Jira oracle that always succeeds with an empty issue list. -/
def testJira : JiraOracle := fun _ _ => .ok ⟨some []⟩

/-- A request correctly signed under `testHmac`/`testCfg` at time 1000. -/
def testHttpOk : HttpReq := ⟨some "1000", some "v0=aa", "body"⟩

/-- A request whose claimed signature does not match (and has a different
byte length than) the expected tag. -/
def testHttpBadSig : HttpReq := ⟨some "1000", some "bad", "body"⟩

/-- A minimal Jira issue. -/
def testIssue : Issue := ⟨"K-1", none, none, none⟩

/-- A Jira oracle that always succeeds with 40 copies of `testIssue`. -/
def testJira40 : JiraOracle := fun _ _ => .ok ⟨some (List.replicate 40 testIssue)⟩

/-- A correctly signed `event_callback` request from the allow-listed
channel whose text carries the `#problemashoy` command. -/
def testEventsReqHappy : EventsRequest :=
  ⟨testHttpOk, some ⟨"event_callback", "",
    some ⟨"message", none, none, "C1", some "hi #problemashoy", "111.22"⟩⟩⟩

/-- A 3801-character string, one character over the delivery cap. -/
def longA : String := String.mk (List.replicate 3801 'a')

/-! ## General lemmas about the embedded definitions -/

/-- `signatureMatches` accepts exactly the claimed signatures that equal
the expected `"v0=..."` tag: a byte-length mismatch makes the
constant-time comparison throw, which the `catch` turns into `false`,
and equal-length buffers compare by byte equality. -/
theorem signatureMatches_iff (hmac : String → String → String)
    (secret ts body sig : String) :
    signatureMatches hmac secret ts body sig = true ↔
      sig = "v0=" ++ hmac secret ("v0:" ++ ts ++ ":" ++ body) := by
  simp only [signatureMatches, timingSafeEqual]
  split_ifs with h
  · constructor
    · intro hfalse; cases hfalse
    · intro heq; exact absurd (by rw [heq]) h
  · simp only [beq_iff_eq]
    exact ⟨fun he => he.symm, fun he => he.symm⟩

/-- `findHash` finds nothing in text containing no `#` character. -/
theorem findHash_no_hash (l : List Char) : ∀ b, '#' ∉ l → findHash b l = none := by
  induction l with
  | nil => intro b _; rfl
  | cons c rest ih =>
    intro b hmem
    have hc : ¬ (c = '#') := fun h => hmem (h ▸ List.mem_cons_self c rest)
    have hrest : '#' ∉ rest := fun h => hmem (List.mem_cons_of_mem c h)
    simp only [findHash, if_neg hc]
    exact ih _ hrest

/-- `takeWhile` swallows a whole prefix all of whose elements satisfy the
predicate. -/
theorem takeWhile_append_all {p : Char → Bool} (l1 l2 : List Char)
    (h : ∀ c ∈ l1, p c = true) :
    (l1 ++ l2).takeWhile p = l1 ++ l2.takeWhile p := by
  induction l1 with
  | nil => simp
  | cons c t ih =>
    simp [List.takeWhile_cons, h c (List.mem_cons_self c t),
      ih (fun x hx => h x (List.mem_cons_of_mem c hx))]

/-- The truncated string is never longer than the cap. -/
theorem sliceChars_length_le (s : String) (n : Nat) : (sliceChars s n).length ≤ n := by
  show (s.data.take n).length ≤ n
  rw [List.length_take]
  exact Nat.min_le_left _ _

/-- Truncation leaves a string within the cap unchanged. -/
theorem sliceChars_eq_of_le (s : String) (n : Nat) (h : s.length ≤ n) :
    sliceChars s n = s := by
  unfold sliceChars
  rw [List.take_of_length_le h]

set_option maxRecDepth 16384 in
/-- The hashtag help text fits within the delivery cap. -/
theorem buildCommandsHelp_hash_le : (buildCommandsHelp "#").length ≤ 3800 := by decide

set_option maxRecDepth 16384 in
/-- The fixed unknown-command reply fits within the delivery cap. -/
theorem unknownMsg_le :
    ("Comando no reconocido. Escribí #comandos para ver la lista." : String).length ≤ 3800 := by
  decide

/-- Every thread reply produced by the events-surface dispatch is at most
3800 characters long. -/
theorem eventsDispatch_post_le (cfg : Config) (jira : JiraOracle) (ev : SlackEvent)
    (cmd ch ts txt : String)
    (h : Action.slackPost ch ts txt ∈ eventsDispatch cfg jira ev cmd) : txt.length ≤ 3800 := by
  unfold eventsDispatch at h
  split_ifs at h with h1 h2 h3
  · simp only [List.mem_singleton, Action.slackPost.injEq] at h
    obtain ⟨-, -, h⟩ := h
    subst h
    exact buildCommandsHelp_hash_le
  · cases hjq : jira JQL_PROBLEMAS_HOY 50 with
    | ok d =>
      rw [hjq] at h
      simp only [List.mem_cons, List.mem_singleton, Action.slackPost.injEq,
        reduceCtorEq, false_or, List.not_mem_nil, or_false] at h
      obtain ⟨-, -, h⟩ := h
      subst h
      exact sliceChars_length_le _ _
    | error m =>
      rw [hjq] at h
      simp only [List.mem_cons, List.mem_singleton, Action.slackPost.injEq,
        reduceCtorEq, false_or, List.not_mem_nil, or_false] at h
      obtain ⟨-, -, h⟩ := h
      subst h
      exact sliceChars_length_le _ _
  · cases hjq : jira JQL_DETALLES_HOY 50 with
    | ok d =>
      rw [hjq] at h
      simp only [List.mem_cons, List.mem_singleton, Action.slackPost.injEq,
        reduceCtorEq, false_or, List.not_mem_nil, or_false] at h
      obtain ⟨-, -, h⟩ := h
      subst h
      exact sliceChars_length_le _ _
    | error m =>
      rw [hjq] at h
      simp only [List.mem_cons, List.mem_singleton, Action.slackPost.injEq,
        reduceCtorEq, false_or, List.not_mem_nil, or_false] at h
      obtain ⟨-, -, h⟩ := h
      subst h
      exact sliceChars_length_le _ _
  · simp only [List.mem_singleton, Action.slackPost.injEq] at h
    obtain ⟨-, -, h⟩ := h
    subst h
    exact unknownMsg_le

/-- Every thread reply produced behind the events-surface gate is at most
3800 characters long. -/
theorem eventsGate_post_le (cfg : Config) (jira : JiraOracle) (p : EventsPayload)
    (ch ts txt : String)
    (h : Action.slackPost ch ts txt ∈ eventsGate cfg jira p) : txt.length ≤ 3800 := by
  unfold eventsGate at h
  by_cases h1 : p.type ≠ "event_callback"
  · rw [if_pos h1] at h; simp at h
  · rw [if_neg h1] at h
    rcases hev : p.event with _ | ev <;> rw [hev] at h <;> dsimp only at h
    · simp at h
    · by_cases h2 : (decide (ev.type ≠ "message") || strTruthy ev.bot_id
        || strTruthy ev.subtype) = true
      · rw [if_pos h2] at h; simp at h
      · rw [if_neg h2] at h
        by_cases h3 : (!cfg.allowedChannels.contains ev.channel) = true
        · rw [if_pos h3] at h; simp at h
        · rw [if_neg h3] at h
          rcases hc : parseHashCommand ev.text with _ | c <;> rw [hc] at h
          · simp at h
          · exact eventsDispatch_post_le cfg jira ev c ch ts txt h

/-- Every thread reply posted by the events handler is at most 3800
characters long. -/
theorem handleEvents_post_le (hmac : String → String → String) (cfg : Config) (now : Int)
    (jira : JiraOracle) (req : EventsRequest) (ch ts txt : String)
    (h : Action.slackPost ch ts txt ∈ handleEvents hmac cfg now jira req) :
    txt.length ≤ 3800 := by
  unfold handleEvents at h
  rcases hpay : req.payload with _ | p <;> rw [hpay] at h <;> dsimp only at h
  · simp at h
  · by_cases h1 : p.type = "url_verification"
    · rw [if_pos h1] at h; simp at h
    · rw [if_neg h1] at h
      by_cases h2 : (!verifySlackSignature hmac cfg.secret now req.http) = true
      · rw [if_pos h2] at h; simp at h
      · rw [if_neg h2] at h
        simp only [List.mem_cons, reduceCtorEq, false_or] at h
        exact eventsGate_post_le cfg jira p ch ts txt h

/-- Every `response_url` delivery produced by the commands-surface
dispatch is at most 3800 characters long. -/
theorem commandsDispatch_post_le (cfg : Config) (jira : JiraOracle)
    (responseUrl command u rt txt : String)
    (h : Action.responseUrlPost u rt txt ∈ commandsDispatch cfg jira responseUrl command) :
    txt.length ≤ 3800 := by
  unfold commandsDispatch at h
  split_ifs at h with h1 h2 h3 h4
  · simp only [respondInChannelViaResponseUrl, List.mem_singleton,
      Action.responseUrlPost.injEq] at h
    obtain ⟨-, -, h⟩ := h
    subst h
    exact sliceChars_length_le _ _
  · cases hjq : jira JQL_PROBLEMAS_HOY 50 with
    | ok d =>
      rw [hjq] at h
      simp only [respondInChannelViaResponseUrl, List.mem_cons, List.mem_singleton,
        Action.responseUrlPost.injEq, reduceCtorEq, false_or, List.not_mem_nil, or_false] at h
      obtain ⟨-, -, h⟩ := h
      subst h
      exact sliceChars_length_le _ _
    | error m =>
      rw [hjq] at h
      simp at h
  · cases hjq : jira JQL_DETALLES_HOY 50 with
    | ok d =>
      rw [hjq] at h
      simp only [respondInChannelViaResponseUrl, List.mem_cons, List.mem_singleton,
        Action.responseUrlPost.injEq, reduceCtorEq, false_or, List.not_mem_nil, or_false] at h
      obtain ⟨-, -, h⟩ := h
      subst h
      exact sliceChars_length_le _ _
    | error m =>
      rw [hjq] at h
      simp at h
  · cases hjq : jira JQL_ASISTENCIA_MANANA 50 with
    | ok d =>
      rw [hjq] at h
      simp only [respondInChannelViaResponseUrl, List.mem_cons, List.mem_singleton,
        Action.responseUrlPost.injEq, reduceCtorEq, false_or, List.not_mem_nil, or_false] at h
      obtain ⟨-, -, h⟩ := h
      subst h
      exact sliceChars_length_le _ _
    | error m =>
      rw [hjq] at h
      simp at h
  · simp only [respondInChannelViaResponseUrl, List.mem_singleton,
      Action.responseUrlPost.injEq] at h
    obtain ⟨-, -, h⟩ := h
    subst h
    exact sliceChars_length_le _ _

/-- Every `response_url` delivery made by the commands handler is at most
3800 characters long. -/
theorem handleCommands_post_le (hmac : String → String → String) (cfg : Config) (now : Int)
    (jira : JiraOracle) (req : CommandsRequest) (u rt txt : String)
    (h : Action.responseUrlPost u rt txt ∈ handleCommands hmac cfg now jira req) :
    txt.length ≤ 3800 := by
  simp only [handleCommands] at h
  by_cases h1 : (!verifySlackSignature hmac cfg.secret now req.http) = true
  · rw [if_pos h1] at h; simp at h
  · rw [if_neg h1] at h
    by_cases h2 : (!strTruthy req.response_url) = true
    · rw [if_pos h2] at h; simp at h
    · rw [if_neg h2] at h
      by_cases h3 : (!cfg.allowedChannels.contains (trimString (req.channel_id.getD ""))) = true
      · rw [if_pos h3] at h; simp at h
      · rw [if_neg h3] at h
        simp only [List.mem_cons, reduceCtorEq, false_or] at h
        exact commandsDispatch_post_le cfg jira (req.response_url.getD "")
          (trimString (req.command.getD "")) u rt txt h

/-! ## Claim theorems -/

/-- **C1.** For every inbound request, `verifySlackSignature` accepts if
and only if the timestamp and signature headers are both present (and
non-empty, since JS treats the empty header as absent), the distance
between the current Unix time and the numeric timestamp is at most 300
seconds, and the claimed signature byte-equals the expected
`"v0=" + hex(HMAC-SHA256(secret, "v0:" + timestamp + ":" + rawBody))`
tag; a request 301 seconds off in either direction is rejected, and a
request with a missing header is rejected. -/
theorem C1_verify_accepts_iff (hmac : String → String → String) (secret : String)
    (now n : Int) (ts sig body : String)
    (hts : ts ≠ "") (hsig : sig ≠ "") (hn : jsNumber ts = some n) :
    (verifySlackSignature hmac secret now ⟨some ts, some sig, body⟩ = true ↔
      ((now - n).natAbs ≤ 300 ∧ sig = "v0=" ++ hmac secret ("v0:" ++ ts ++ ":" ++ body)))
    ∧ ((now - n).natAbs = 301 →
        verifySlackSignature hmac secret now ⟨some ts, some sig, body⟩ = false)
    ∧ (∀ x body2, verifySlackSignature hmac secret now ⟨none, x, body2⟩ = false)
    ∧ (∀ x body2, verifySlackSignature hmac secret now ⟨x, none, body2⟩ = false) := by
  have hwin : windowRejects now ts = decide (300 < (now - n).natAbs) := by
    unfold windowRejects; rw [hn]
  refine ⟨?_, ?_, ?_, ?_⟩
  · show (if ts = "" ∨ sig = "" then false
      else if windowRejects now ts = true then false
      else signatureMatches hmac secret ts body sig) = true ↔ _
    rw [if_neg (by tauto), hwin]
    by_cases hgt : 300 < (now - n).natAbs
    · simp [hgt]
    · simp [hgt, signatureMatches_iff]; omega
  · intro h301
    show (if ts = "" ∨ sig = "" then false
      else if windowRejects now ts = true then false
      else signatureMatches hmac secret ts body sig) = false
    rw [if_neg (by tauto), hwin]
    simp [h301]
  · intro x body2; cases x <;> rfl
  · intro x body2; cases x <;> rfl

/-- Witness for C1: a correctly signed request with a timestamp equal to
the current time is accepted, and the same request seen 301 seconds
later is rejected. -/
theorem C1_verify_accepts_iff_witness :
    verifySlackSignature (fun _ _ => "aa") "sek" 1000 ⟨some "1000", some "v0=aa", "b"⟩ = true
    ∧ verifySlackSignature (fun _ _ => "aa") "sek" 1301 ⟨some "1000", some "v0=aa", "b"⟩ = false := by
  constructor
  · exact ((C1_verify_accepts_iff (fun _ _ => "aa") "sek" 1000 1000 "1000" "v0=aa" "b"
      (by decide) (by decide) rfl).1).mpr ⟨by decide, rfl⟩
  · exact (C1_verify_accepts_iff (fun _ _ => "aa") "sek" 1301 1000 "1000" "v0=aa" "b"
      (by decide) (by decide) rfl).2.1 (by decide)

/-- **C9.** Any exception raised by the constant-time tag comparison —
in particular a claimed signature whose byte length differs from the
expected tag's — makes `verifySlackSignature` return `false` rather
than propagate the error. -/
theorem C9_comparison_exception_rejects (hmac : String → String → String)
    (secret : String) (now : Int) (ts sig body : String) :
    (timingSafeEqual ("v0=" ++ hmac secret ("v0:" ++ ts ++ ":" ++ body)) sig = .error () →
      verifySlackSignature hmac secret now ⟨some ts, some sig, body⟩ = false)
    ∧ (("v0=" ++ hmac secret ("v0:" ++ ts ++ ":" ++ body)).utf8ByteSize ≠ sig.utf8ByteSize →
      verifySlackSignature hmac secret now ⟨some ts, some sig, body⟩ = false) := by
  have key : ∀ _h : timingSafeEqual ("v0=" ++ hmac secret ("v0:" ++ ts ++ ":" ++ body)) sig
      = .error (),
      verifySlackSignature hmac secret now ⟨some ts, some sig, body⟩ = false := by
    intro h
    show (if ts = "" ∨ sig = "" then false
      else if windowRejects now ts = true then false
      else signatureMatches hmac secret ts body sig) = false
    have hm : signatureMatches hmac secret ts body sig = false := by
      simp only [signatureMatches, h]
    split_ifs <;> simp [hm]
  refine ⟨key, fun hlen => key ?_⟩
  simp only [timingSafeEqual, if_pos hlen]

/-- Witness for C9: a claimed signature of a different byte length than
the expected tag is rejected. -/
theorem C9_comparison_exception_rejects_witness :
    ("v0=" ++ (fun _ _ => "aa") "sek" ("v0:" ++ "1000" ++ ":" ++ "b")).utf8ByteSize
      ≠ ("xy" : String).utf8ByteSize
    ∧ verifySlackSignature (fun _ _ => "aa") "sek" 1000 ⟨some "1000", some "xy", "b"⟩ = false :=
  ⟨by decide, (C9_comparison_exception_rejects (fun _ _ => "aa") "sek" 1000 "1000" "xy" "b").2
    (by decide)⟩

/-- **C10.** When the timestamp header is present but non-numeric
(`Number(timestamp)` is NaN), the anti-replay window never rejects — the
JS comparison `|now − NaN| > 300` is `false` — so for every current time
whatsoever the verifier accepts exactly when the claimed signature
equals the tag computed over the non-numeric timestamp string. -/
theorem C10_nan_timestamp_bypasses_window (hmac : String → String → String)
    (secret : String) (now : Int) (ts sig body : String)
    (hts : ts ≠ "") (hsig : sig ≠ "") (hnan : jsNumber ts = none) :
    verifySlackSignature hmac secret now ⟨some ts, some sig, body⟩ = true ↔
      sig = "v0=" ++ hmac secret ("v0:" ++ ts ++ ":" ++ body) := by
  have hwin : windowRejects now ts = false := by
    unfold windowRejects; rw [hnan]
  show (if ts = "" ∨ sig = "" then false
    else if windowRejects now ts = true then false
    else signatureMatches hmac secret ts body sig) = true ↔ _
  rw [if_neg (by tauto), hwin]
  simpa using signatureMatches_iff hmac secret ts body sig

/-- Witness for C10: a request whose timestamp header is the non-numeric
string `"abc"` is accepted with an arbitrarily distant current time when
its signature matches the tag over `"v0:abc:..."`. -/
theorem C10_nan_timestamp_bypasses_window_witness :
    jsNumber "abc" = none
    ∧ verifySlackSignature (fun _ _ => "aa") "sek" 999999999
        ⟨some "abc", some "v0=aa", "b"⟩ = true :=
  ⟨rfl, (C10_nan_timestamp_bypasses_window (fun _ _ => "aa") "sek" 999999999 "abc" "v0=aa" "b"
      (by decide) (by decide) rfl).mpr rfl⟩

/-- **C2 (counterexample).** The claim "every request that signature
verification rejects gets a 401 and no further processing — in
particular no challenge reply" fails on the events surface: a
`url_verification` payload is answered with its challenge (HTTP 200)
even though the very same request fails signature verification. -/
theorem C2_counterexample :
    verifySlackSignature testHmac testCfg.secret 1000 testHttpBadSig = false
    ∧ handleEvents testHmac testCfg 1000 testJira
        ⟨testHttpBadSig, some ⟨"url_verification", "chal", none⟩⟩ =
      [.respond (.text 200 "chal")] := ⟨rfl, rfl⟩

/-- **C2 (amended).** For every request that signature verification
rejects: the commands surface returns 401 "invalid signature" and
performs no further action, and the events surface does the same
provided the body parsed as JSON and the payload type is not
`url_verification` (a `url_verification` payload is answered with its
challenge before the signature is ever checked). -/
theorem C2_reject_halts (hmac : String → String → String) (cfg : Config) (now : Int)
    (jira : JiraOracle) (reqC : CommandsRequest) (reqE : EventsRequest) (p : EventsPayload)
    (hC : verifySlackSignature hmac cfg.secret now reqC.http = false)
    (hE : verifySlackSignature hmac cfg.secret now reqE.http = false)
    (hp : reqE.payload = some p) (hty : p.type ≠ "url_verification") :
    handleCommands hmac cfg now jira reqC = [.respond (.text 401 "invalid signature")]
    ∧ handleEvents hmac cfg now jira reqE = [.respond (.text 401 "invalid signature")] := by
  constructor
  · simp [handleCommands, hC]
  · simp [handleEvents, hp, hty, hE]

/-- Witness for C2 (amended): a badly signed request is answered with
401 and nothing else on both surfaces. -/
theorem C2_reject_halts_witness :
    handleCommands testHmac testCfg 1000 testJira
        ⟨testHttpBadSig, some "/comandos", some "C1", some "u"⟩ =
      [.respond (.text 401 "invalid signature")]
    ∧ handleEvents testHmac testCfg 1000 testJira
        ⟨testHttpBadSig, some ⟨"event_callback", "", none⟩⟩ =
      [.respond (.text 401 "invalid signature")] :=
  C2_reject_halts testHmac testCfg 1000 testJira
    ⟨testHttpBadSig, some "/comandos", some "C1", some "u"⟩
    ⟨testHttpBadSig, some ⟨"event_callback", "", none⟩⟩
    ⟨"event_callback", "", none⟩ rfl rfl rfl (by decide)

/-- **C3 (counterexample).** The claim "every verified request from a
non-allow-listed channel gets the explicit ephemeral notice on the
commands surface" fails when the request carries no `response_url`: the
handler answers 400 "missing response_url" before the allow-list check,
so no notice is sent. -/
theorem C3_counterexample :
    verifySlackSignature testHmac testCfg.secret 1000 testHttpOk = true
    ∧ testCfg.allowedChannels.contains (trimString "CX") = false
    ∧ handleCommands testHmac testCfg 1000 testJira
        ⟨testHttpOk, some "/problemashoy", some "CX", none⟩ =
      [.respond (.text 400 "missing response_url")] := ⟨rfl, rfl, rfl⟩

/-- **C3 (amended).** For every verified request whose source channel is
not in the allow-list, no external query executes: the events surface
sends only the ack and no outbound message (silent drop), and the
commands surface — provided the request carries a non-empty
`response_url` — answers only the ephemeral "not enabled in this
channel" notice. -/
theorem C3_unauthorized_channel (hmac : String → String → String) (cfg : Config)
    (now : Int) (jira : JiraOracle)
    (reqE : EventsRequest) (p : EventsPayload) (ev : SlackEvent)
    (reqC : CommandsRequest) (u : String)
    (hvE : verifySlackSignature hmac cfg.secret now reqE.http = true)
    (hp : reqE.payload = some p) (hty : p.type = "event_callback")
    (hev : p.event = some ev) (hmsg : ev.type = "message")
    (hb : strTruthy ev.bot_id = false) (hs : strTruthy ev.subtype = false)
    (hch : cfg.allowedChannels.contains ev.channel = false)
    (hvC : verifySlackSignature hmac cfg.secret now reqC.http = true)
    (hru : reqC.response_url = some u) (hu : u ≠ "")
    (hchC : cfg.allowedChannels.contains (trimString (reqC.channel_id.getD "")) = false) :
    handleEvents hmac cfg now jira reqE = [.respond (.text 200 "ok")]
    ∧ handleCommands hmac cfg now jira reqC =
        [.respond (.json 200 "ephemeral" "Este comando no está habilitado en este canal.")] := by
  have hch' : ev.channel ∉ cfg.allowedChannels := by simpa using hch
  have hchC' : trimString (reqC.channel_id.getD "") ∉ cfg.allowedChannels := by simpa using hchC
  constructor
  · simp [handleEvents, eventsGate, hp, hty, hev, hmsg, hb, hs, hch', hvE]
  · simp [handleCommands, hvC, hru, strTruthy, hu, hchC']

/-- Witness for C3 (amended): a verified request from channel `"CX"`
(not allow-listed) is silently dropped on the events surface and gets
the ephemeral notice on the commands surface. -/
theorem C3_unauthorized_channel_witness :
    handleEvents testHmac testCfg 1000 testJira
        ⟨testHttpOk, some ⟨"event_callback", "",
          some ⟨"message", none, none, "CX", some "#problemashoy", "1.2"⟩⟩⟩ =
      [.respond (.text 200 "ok")]
    ∧ handleCommands testHmac testCfg 1000 testJira
        ⟨testHttpOk, some "/problemashoy", some "CX", some "u"⟩ =
      [.respond (.json 200 "ephemeral" "Este comando no está habilitado en este canal.")] :=
  C3_unauthorized_channel testHmac testCfg 1000 testJira
    ⟨testHttpOk, some ⟨"event_callback", "",
      some ⟨"message", none, none, "CX", some "#problemashoy", "1.2"⟩⟩⟩
    ⟨"event_callback", "", some ⟨"message", none, none, "CX", some "#problemashoy", "1.2"⟩⟩
    ⟨"message", none, none, "CX", some "#problemashoy", "1.2"⟩
    ⟨testHttpOk, some "/problemashoy", some "CX", some "u"⟩ "u"
    rfl rfl rfl rfl rfl rfl rfl rfl rfl rfl (by decide) rfl

/-- **C4.** For every verified, authorized request carrying a recognized
query-backed command, the trace is exactly: the fast ack HTTP response,
then the `jiraSearch` invocation, then the side-channel delivery
(threaded reply on the events surface, `response_url` callback on the
commands surface) — so the ack strictly precedes the external query and
the substantive result follows it. -/
theorem C4_ack_before_query (hmac : String → String → String) (cfg : Config) (now : Int)
    (jira : JiraOracle)
    (reqE : EventsRequest) (p : EventsPayload) (ev : SlackEvent) (c : String)
    (reqC : CommandsRequest) (u cmd : String)
    (hok : ∀ q n, ∃ d, jira q n = Except.ok d)
    (hvE : verifySlackSignature hmac cfg.secret now reqE.http = true)
    (hp : reqE.payload = some p) (hty : p.type = "event_callback")
    (hev : p.event = some ev) (hmsg : ev.type = "message")
    (hb : strTruthy ev.bot_id = false) (hs : strTruthy ev.subtype = false)
    (hch : cfg.allowedChannels.contains ev.channel = true)
    (hc : parseHashCommand ev.text = some c)
    (hcq : c = "problemashoy" ∨ c = "detalleshoy")
    (hvC : verifySlackSignature hmac cfg.secret now reqC.http = true)
    (hru : reqC.response_url = some u) (hu : u ≠ "")
    (hchC : cfg.allowedChannels.contains (trimString (reqC.channel_id.getD "")) = true)
    (hcmd : trimString (reqC.command.getD "") = cmd)
    (hq : cmd = "/problemashoy" ∨ cmd = "/detalleshoy" ∨ cmd = "/asistenciamanana") :
    (∃ jql txt, handleEvents hmac cfg now jira reqE =
      [.respond (.text 200 "ok"), .jiraQuery jql 50, .slackPost ev.channel ev.ts txt])
    ∧ (∃ jql txt, handleCommands hmac cfg now jira reqC =
      [.respond (.text 200 ""), .jiraQuery jql 50, .responseUrlPost u "in_channel" txt]) := by
  have hch' : ev.channel ∈ cfg.allowedChannels := by simpa using hch
  have hchC' : trimString (reqC.channel_id.getD "") ∈ cfg.allowedChannels := by simpa using hchC
  constructor
  · obtain hcq | hcq := hcq <;> subst hcq
    · obtain ⟨d, hd⟩ := hok JQL_PROBLEMAS_HOY 50
      refine ⟨JQL_PROBLEMAS_HOY,
        sliceChars (resultText "Problemas de hoy" "• Sin resultados para hoy."
          cfg.jiraBaseUrl (d.issues.getD [])) 3800, ?_⟩
      simp [handleEvents, eventsGate, hp, hty, hev, hmsg, hb, hs, hch', hvE, hc,
        eventsDispatch, hd]
    · obtain ⟨d, hd⟩ := hok JQL_DETALLES_HOY 50
      refine ⟨JQL_DETALLES_HOY,
        sliceChars (resultText "Detalles de hoy" "• Sin resultados para hoy."
          cfg.jiraBaseUrl (d.issues.getD [])) 3800, ?_⟩
      simp [handleEvents, eventsGate, hp, hty, hev, hmsg, hb, hs, hch', hvE, hc,
        eventsDispatch, hd]
  · subst hcmd
    obtain hq | hq | hq := hq
    · obtain ⟨d, hd⟩ := hok JQL_PROBLEMAS_HOY 50
      refine ⟨JQL_PROBLEMAS_HOY,
        sliceChars (resultText "Problemas de hoy" "• Sin resultados para hoy."
          cfg.jiraBaseUrl (d.issues.getD [])) 3800, ?_⟩
      simp [handleCommands, hvC, hru, strTruthy, hu, hchC', hq, commandsDispatch, hd,
        respondInChannelViaResponseUrl]
    · obtain ⟨d, hd⟩ := hok JQL_DETALLES_HOY 50
      refine ⟨JQL_DETALLES_HOY,
        sliceChars (resultText "Detalles de hoy" "• Sin resultados para hoy."
          cfg.jiraBaseUrl (d.issues.getD [])) 3800, ?_⟩
      simp [handleCommands, hvC, hru, strTruthy, hu, hchC', hq, commandsDispatch, hd,
        respondInChannelViaResponseUrl]
    · obtain ⟨d, hd⟩ := hok JQL_ASISTENCIA_MANANA 50
      refine ⟨JQL_ASISTENCIA_MANANA,
        sliceChars (resultText "Asistencias de mañana" "• Sin resultados para mañana."
          cfg.jiraBaseUrl (d.issues.getD [])) 3800, ?_⟩
      simp [handleCommands, hvC, hru, strTruthy, hu, hchC', hq, commandsDispatch, hd,
        respondInChannelViaResponseUrl]

/-- Witness for C4: on concrete happy-path requests both surfaces ack
first, query Jira second, and deliver the result third. -/
theorem C4_ack_before_query_witness :
    (∃ jql txt, handleEvents testHmac testCfg 1000 testJira testEventsReqHappy =
      [.respond (.text 200 "ok"), .jiraQuery jql 50, .slackPost "C1" "111.22" txt])
    ∧ (∃ jql txt, handleCommands testHmac testCfg 1000 testJira
        ⟨testHttpOk, some "/problemashoy", some "C1", some "u"⟩ =
      [.respond (.text 200 ""), .jiraQuery jql 50, .responseUrlPost "u" "in_channel" txt]) :=
  C4_ack_before_query testHmac testCfg 1000 testJira testEventsReqHappy
    ⟨"event_callback", "", some ⟨"message", none, none, "C1", some "hi #problemashoy", "111.22"⟩⟩
    ⟨"message", none, none, "C1", some "hi #problemashoy", "111.22"⟩ "problemashoy"
    ⟨testHttpOk, some "/problemashoy", some "C1", some "u"⟩ "u" "/problemashoy"
    (fun _ _ => ⟨⟨some []⟩, rfl⟩) rfl rfl rfl rfl rfl rfl rfl rfl rfl (Or.inl rfl)
    rfl rfl (by decide) rfl rfl (Or.inl rfl)

/-- **C5.** `parseHashCommand` returns the lower-cased run of
alphanumeric/underscore characters following a `#` at the start of the
text or after whitespace, and no command otherwise: the three concrete
examples of the claim, plus the general facts that marker-free text
yields no command and that a `#`-led word run is returned lower-cased. -/
theorem C5_parse_hash_command (t : String) (tok rest : List Char)
    (hnohash : '#' ∉ t.data)
    (htok : tok ≠ []) (hword : ∀ c ∈ tok, isWordChar c = true)
    (hrest : rest.takeWhile isWordChar = []) :
    parseHashCommand (some "please check #problemashoy now") = some "problemashoy"
    ∧ parseHashCommand (some "see issue#123") = none
    ∧ parseHashCommand none = none
    ∧ parseHashCommand (some t) = none
    ∧ parseHashCommand (some (String.mk ('#' :: (tok ++ rest)))) =
        some (String.mk (tok.map Char.toLower)) := by
  have hrun : (tok ++ rest).takeWhile isWordChar = tok := by
    rw [takeWhile_append_all tok rest hword, hrest, List.append_nil]
  have hfind : findHash true ('#' :: (tok ++ rest)) = some tok := by
    simp [findHash, hrun, List.isEmpty_iff, htok]
  refine ⟨rfl, rfl, rfl, ?_, ?_⟩
  · show (if t = "" then none
      else (findHash true t.data).map (fun run => String.mk (run.map Char.toLower))) = none
    split_ifs with h
    · rfl
    · rw [findHash_no_hash t.data true hnohash]; rfl
  · show (if String.mk ('#' :: (tok ++ rest)) = "" then none
      else (findHash true ('#' :: (tok ++ rest))).map
        (fun run => String.mk (run.map Char.toLower))) = some (String.mk (tok.map Char.toLower))
    rw [if_neg (by simp [String.ext_iff]), hfind]
    rfl

/-- Witness for C5: text without the marker parses to no command, and a
leading `#AB` parses to the lower-cased token `ab`. -/
theorem C5_parse_hash_command_witness :
    parseHashCommand (some "no marker here") = none
    ∧ parseHashCommand (some (String.mk ('#' :: (['A', 'B'] ++ [' ', 'x'])))) =
        some (String.mk (['A', 'B'].map Char.toLower)) :=
  ⟨(C5_parse_hash_command "no marker here" ['A', 'B'] [' ', 'x']
      (by decide) (by decide) (by decide) rfl).2.2.2.1,
   (C5_parse_hash_command "no marker here" ['A', 'B'] [' ', 'x']
      (by decide) (by decide) (by decide) rfl).2.2.2.2⟩

set_option maxRecDepth 8192 in
/-- **C6 (counterexample).** The claim that an unrecognized token on the
events surface produces a "command not recognized" response *plus the
full help listing* fails: the reply to `#xyz` is only the fixed
"Comando no reconocido. Escribí #comandos para ver la lista." text,
which does not contain the help listing. -/
theorem C6_counterexample :
    handleEvents testHmac testCfg 1000 testJira
        ⟨testHttpOk, some ⟨"event_callback", "",
          some ⟨"message", none, none, "C1", some "#xyz", "1.2"⟩⟩⟩ =
      [.respond (.text 200 "ok"),
       .slackPost "C1" "1.2" "Comando no reconocido. Escribí #comandos para ver la lista."]
    ∧ ¬ (buildCommandsHelp "#").data <:+:
        ("Comando no reconocido. Escribí #comandos para ver la lista.").data := by
  refine ⟨rfl, fun h => ?_⟩
  have hle := h.length_le
  revert hle
  decide

/-- **C6 (amended).** On the events surface an unrecognized parsed token
produces the fixed "Comando no reconocido. Escribí #comandos para ver la
lista." reply (pointing at `#comandos` rather than embedding the help
listing), whereas a message from which no token parses produces no
outbound message at all — two distinct outcomes. -/
theorem C6_unknown_vs_no_command (hmac : String → String → String) (cfg : Config)
    (now : Int) (jira : JiraOracle)
    (reqE reqE' : EventsRequest) (p p' : EventsPayload) (ev ev' : SlackEvent) (c : String)
    (hvE : verifySlackSignature hmac cfg.secret now reqE.http = true)
    (hp : reqE.payload = some p) (hty : p.type = "event_callback")
    (hev : p.event = some ev) (hmsg : ev.type = "message")
    (hb : strTruthy ev.bot_id = false) (hs : strTruthy ev.subtype = false)
    (hch : cfg.allowedChannels.contains ev.channel = true)
    (hc : parseHashCommand ev.text = some c)
    (hc1 : c ≠ "comandos") (hc2 : c ≠ "problemashoy") (hc3 : c ≠ "detalleshoy")
    (hvE' : verifySlackSignature hmac cfg.secret now reqE'.http = true)
    (hp' : reqE'.payload = some p') (hty' : p'.type = "event_callback")
    (hev' : p'.event = some ev') (hmsg' : ev'.type = "message")
    (hb' : strTruthy ev'.bot_id = false) (hs' : strTruthy ev'.subtype = false)
    (hch' : cfg.allowedChannels.contains ev'.channel = true)
    (hc' : parseHashCommand ev'.text = none) :
    handleEvents hmac cfg now jira reqE =
      [.respond (.text 200 "ok"),
       .slackPost ev.channel ev.ts "Comando no reconocido. Escribí #comandos para ver la lista."]
    ∧ handleEvents hmac cfg now jira reqE' = [.respond (.text 200 "ok")] := by
  have hm : ev.channel ∈ cfg.allowedChannels := by simpa using hch
  have hm' : ev'.channel ∈ cfg.allowedChannels := by simpa using hch'
  constructor
  · simp [handleEvents, eventsGate, hp, hty, hev, hmsg, hb, hs, hm, hvE, hc,
      eventsDispatch, hc1, hc2, hc3]
  · simp [handleEvents, eventsGate, hp', hty', hev', hmsg', hb', hs', hm', hvE', hc']

/-- Witness for C6 (amended): `#xyz` draws the fixed unknown-command
reply while `hello` draws nothing beyond the ack. -/
theorem C6_unknown_vs_no_command_witness :
    handleEvents testHmac testCfg 1000 testJira
        ⟨testHttpOk, some ⟨"event_callback", "",
          some ⟨"message", none, none, "C1", some "#xyz", "1.2"⟩⟩⟩ =
      [.respond (.text 200 "ok"),
       .slackPost "C1" "1.2" "Comando no reconocido. Escribí #comandos para ver la lista."]
    ∧ handleEvents testHmac testCfg 1000 testJira
        ⟨testHttpOk, some ⟨"event_callback", "",
          some ⟨"message", none, none, "C1", some "hello", "1.3"⟩⟩⟩ =
      [.respond (.text 200 "ok")] :=
  C6_unknown_vs_no_command testHmac testCfg 1000 testJira
    ⟨testHttpOk, some ⟨"event_callback", "",
      some ⟨"message", none, none, "C1", some "#xyz", "1.2"⟩⟩⟩
    ⟨testHttpOk, some ⟨"event_callback", "",
      some ⟨"message", none, none, "C1", some "hello", "1.3"⟩⟩⟩
    ⟨"event_callback", "", some ⟨"message", none, none, "C1", some "#xyz", "1.2"⟩⟩
    ⟨"event_callback", "", some ⟨"message", none, none, "C1", some "hello", "1.3"⟩⟩
    ⟨"message", none, none, "C1", some "#xyz", "1.2"⟩
    ⟨"message", none, none, "C1", some "hello", "1.3"⟩ "xyz"
    rfl rfl rfl rfl rfl rfl rfl rfl rfl (by decide) (by decide) (by decide)
    rfl rfl rfl rfl rfl rfl rfl rfl rfl

/-- **C7.** For every query-backed command the formatted response has a
header reporting the true total of the result set and a body of at most
25 item lines: the line count is `min 25 n`, a 40-result set yields
exactly 25 lines, a zero-result set yields the header with total 0
followed by the fixed no-results line, and the events-surface dispatch
posts exactly this formatted text. -/
theorem C7_result_formatting (title noRes baseUrl : String) (issues : List Issue)
    (cfg : Config) (jira : JiraOracle) (ev : SlackEvent) (data : JiraData)
    (hj : jira JQL_PROBLEMAS_HOY 50 = Except.ok data)
    (hd : data.issues = some issues) :
    (resultLines baseUrl issues).length = min 25 issues.length
    ∧ (issues.length = 40 → (resultLines baseUrl issues).length = 25)
    ∧ (issues = [] →
        resultText title noRes baseUrl issues = resultHeader title 0 ++ "\n" ++ noRes)
    ∧ eventsDispatch cfg jira ev "problemashoy" =
        [.jiraQuery JQL_PROBLEMAS_HOY 50,
         .slackPost ev.channel ev.ts
           (sliceChars (resultText "Problemas de hoy" "• Sin resultados para hoy."
             cfg.jiraBaseUrl issues) 3800)] := by
  have hlen : (resultLines baseUrl issues).length = min 25 issues.length := by
    simp [resultLines, List.length_take]
  refine ⟨hlen, fun h40 => ?_, fun hz => ?_, ?_⟩
  · rw [hlen, h40]; rfl
  · subst hz; rfl
  · simp [eventsDispatch, hj, hd]

/-- Witness for C7: 40 concrete results format to exactly 25 body lines,
and an empty result set formats to the total-0 header over the fixed
no-results line. -/
theorem C7_result_formatting_witness :
    (resultLines "https://j" (List.replicate 40 testIssue)).length = 25
    ∧ resultText "T" "nada" "https://j" [] = resultHeader "T" 0 ++ "\n" ++ "nada" :=
  ⟨(C7_result_formatting "T" "nada" "https://j" (List.replicate 40 testIssue) testCfg testJira40
      ⟨"message", none, none, "C1", some "x", "1.1"⟩ ⟨some (List.replicate 40 testIssue)⟩
      rfl rfl).2.1 (by simp),
   (C7_result_formatting "T" "nada" "https://j" [] testCfg testJira
      ⟨"message", none, none, "C1", some "x", "1.1"⟩ ⟨some []⟩ rfl rfl).2.2.1 rfl⟩

/-- **C8.** Delivery-side truncation: truncating a text longer than 3800
characters yields exactly 3800 characters while shorter text passes
unchanged, and every text actually delivered by either surface — each
threaded reply of the events handler and each `response_url` callback of
the commands handler — is at most 3800 characters long. -/
theorem C8_truncation (s : String) :
    (3800 < s.length → (sliceChars s 3800).length = 3800)
    ∧ (s.length ≤ 3800 → sliceChars s 3800 = s)
    ∧ (∀ hmac cfg now jira req ch ts txt,
        Action.slackPost ch ts txt ∈ handleEvents hmac cfg now jira req → txt.length ≤ 3800)
    ∧ (∀ hmac cfg now jira req u rt txt,
        Action.responseUrlPost u rt txt ∈ handleCommands hmac cfg now jira req →
          txt.length ≤ 3800) := by
  refine ⟨fun hgt => ?_, fun hle => sliceChars_eq_of_le s 3800 hle,
    fun hmac cfg now jira req ch ts txt h =>
      handleEvents_post_le hmac cfg now jira req ch ts txt h,
    fun hmac cfg now jira req u rt txt h =>
      handleCommands_post_le hmac cfg now jira req u rt txt h⟩
  show (s.data.take 3800).length = 3800
  rw [List.length_take]
  have hsd : s.length = s.data.length := rfl
  omega

/-- Witness for C8: a 3801-character text truncates to exactly 3800
characters, a short text is unchanged, and the text posted on the
concrete happy path is within the cap. -/
theorem C8_truncation_witness :
    (sliceChars longA 3800).length = 3800
    ∧ sliceChars "corto" 3800 = "corto"
    ∧ (sliceChars (resultText "Problemas de hoy" "• Sin resultados para hoy."
        testCfg.jiraBaseUrl []) 3800).length ≤ 3800 := by
  refine ⟨(C8_truncation longA).1 ?_, (C8_truncation "corto").2.1 (by decide), ?_⟩
  · show 3800 < (List.replicate 3801 'a').length
    rw [List.length_replicate]
    omega
  · have htr : handleEvents testHmac testCfg 1000 testJira testEventsReqHappy =
      [.respond (.text 200 "ok"), .jiraQuery JQL_PROBLEMAS_HOY 50,
       .slackPost "C1" "111.22"
         (sliceChars (resultText "Problemas de hoy" "• Sin resultados para hoy."
           testCfg.jiraBaseUrl []) 3800)] := rfl
    refine (C8_truncation "x").2.2.1 testHmac testCfg 1000 testJira testEventsReqHappy
      "C1" "111.22" _ ?_
    rw [htr]
    exact List.Mem.tail _ (List.Mem.tail _ (List.Mem.head _))

end SlackBot
